import Mathlib

/-!
Verification development for the `AiderRepo` class of `aider/repo.py`.

Modelling conventions (shallow embedding):
* Python strings are modelled as `List Char` (`PyStr`); `len` is `List.length`,
  `+` is `++`, `s[0]`/`s[-1]` are `head?`/`getLast?`, `s[1:-1]` is
  `(List.drop 1 ·).dropLast`, and `str.strip()` is `pyStrip` (ASCII whitespace).
* The external services are oracles passed as function arguments:
  `resolveRoot` models `git.Repo(path, search_parent_directories=True).working_dir`
  composed with `utils.safe_abs_path` (`none` models `InvalidGitRepositoryError`);
  `gitDiff` models `self.repo.git.diff(*args)`;
  `send` models `send_with_retries` followed by
  `response.choices[0].message.content` — it takes the index of the attempt, the
  model name and the user content, and returns `none` when the attempt raises
  `AttributeError` (malformed response) or `openai.error.InvalidRequestError`.
* Side effects (tool_output / tool_error messages, `git diff` invocations,
  model submissions, the `git commit` call) are recorded explicitly in the
  result structures so that theorems can speak about them.
-/

namespace AiderRepoSpec

/-- Python `str` as a list of characters. -/
abbrev PyStr := List Char

/-- Python `str.strip()` (restricted to ASCII whitespace): drop whitespace
from both ends. -/
def pyStrip (s : PyStr) : PyStr :=
  ((s.dropWhile Char.isWhitespace).reverse.dropWhile Char.isWhitespace).reverse

/-! ### Construction (`AiderRepo.__init__`, lines 16–46) -/

/-- Outcome of `AiderRepo.__init__`: `root = none` models the raised
`FileNotFoundError`; `errors` is the list of `tool_error` messages emitted. -/
structure InitResult where
  root : Option String
  errors : List String
deriving DecidableEq

/-- Lines 19–22: `check_fnames = fnames if fnames else ["."]`. -/
def checkFnames (fnames : List String) : List String :=
  if fnames = [] then ["."] else fnames

/-- Lines 24–34: collect, for each candidate, the enclosing repository's
working directory (candidates raising `InvalidGitRepositoryError` are skipped). -/
def repoPaths (resolveRoot : String → Option String) (fnames : List String) :
    List String :=
  (checkFnames fnames).filterMap resolveRoot

/-- Lines 16–46 of `AiderRepo.__init__`: gather the resolved roots, count the
distinct ones (`len(set(repo_paths))`, modelled with `List.dedup`), fail on
zero or more than one, otherwise adopt `repo_paths.pop()` (the last element)
as the managed root. -/
def aiderRepoInit (resolveRoot : String → Option String) (fnames : List String) :
    InitResult :=
  let paths := repoPaths resolveRoot fnames
  let numRepos := paths.dedup.length
  if numRepos = 0 then { root := none, errors := [] }
  else if 1 < numRepos then
    { root := none, errors := ["Files are in different git repos."] }
  else { root := paths.getLast?, errors := [] }

/-! ### Diff retrieval (`AiderRepo.get_diffs`, lines 134–141) -/

/-- Lines 135–138: the argument list handed to `git diff`.  Note the order:
`--color` is prepended *before* the emptiness test, so with `pretty=True` and
no explicit args the list is `["--color"]` and `"HEAD"` is never added. -/
def getDiffsArgs (pretty : Bool) (args : List PyStr) : List PyStr :=
  let args' := if pretty then "--color".data :: args else args
  if args' = [] then ["HEAD".data] else args'

/-- Lines 134–141: `get_diffs` returns the text of `git diff` run on the
computed argument list. -/
def getDiffs (gitDiff : List PyStr → PyStr) (pretty : Bool) (args : List PyStr) :
    PyStr :=
  gitDiff (getDiffsArgs pretty args)

/-! ### Commit-message generation (`AiderRepo.get_commit_message`, lines 89–132) -/

/-- Line 91–93: the `tool_error` text for an oversized diff. -/
def tooLargeError (gpt35 : PyStr) : PyStr :=
  "Diff is too large for ".data ++ gpt35 ++ " to generate a commit message.".data

/-- Lines 128–130 of `get_commit_message`: strip whitespace; when the stripped
text is nonempty and both its first and last characters are `"` remove them
and strip again (`commit_message[1:-1].strip()`). -/
def postprocessMessage (m : PyStr) : PyStr :=
  let t := pyStrip m
  if t ≠ [] ∧ t.head? = some '"' ∧ t.getLast? = some '"' then
    pyStrip ((t.drop 1).dropLast)
  else t

/-- Lines 110–122: the model-fallback loop.  The loop iterates over the two
model names, but each `send_with_retries` call passes `model=models.GPT35.name`
— the loop variable is never used.  The second component collects the model
names actually submitted, in order; `i` counts prior attempts so the oracle
can behave differently on each try. -/
def tryModels (send : Nat → PyStr → PyStr → Option PyStr) (gpt35 : PyStr)
    (content : PyStr) : List PyStr → Nat → Option PyStr × List PyStr
  | [], _ => (none, [])
  | _model :: rest, i =>
    match send i gpt35 content with
    | some resp => (some resp, [gpt35])
    | none =>
      let r := tryModels send gpt35 content rest (i + 1)
      (r.1, gpt35 :: r.2)

/-- Outcome of `get_commit_message`: the returned message (`none` models the
bare `return`), the composed user content (`none` when rejected before
composing), the model names submitted, and the `tool_error` messages. -/
structure GenResult where
  message : Option PyStr
  prompt : Option PyStr
  requests : List PyStr
  errors : List PyStr
deriving DecidableEq

/-- Lines 96–101: label the diff (`"# Diffs:\n" + diffs`) and prepend the
context when truthy, giving the user content of the prompt. -/
def composeContent (diffs : PyStr) (context : Option PyStr) : PyStr :=
  (match context with
    | some c => if c ≠ [] then c ++ "\n".data else []
    | none => []) ++ ("# Diffs:\n".data ++ diffs)

/-- Lines 124–132: turn the outcome of the model loop into the final
`GenResult` — a falsy (absent or empty) message is an error and yields no
message, otherwise the message is post-processed. -/
def genFromResponse (content : PyStr) (reqs : List PyStr) :
    Option PyStr → GenResult
  | none =>
    { message := none, prompt := some content, requests := reqs,
      errors := ["Failed to generate commit message!".data] }
  | some m =>
    if m = [] then
      { message := none, prompt := some content, requests := reqs,
        errors := ["Failed to generate commit message!".data] }
    else
      { message := some (postprocessMessage m), prompt := some content,
        requests := reqs, errors := [] }

/-- Lines 89–132 of `get_commit_message`: reject diffs with
`len(diffs) >= 4 * 1024 * 4`; otherwise compose the prompt content, run the
model loop, and post-process its outcome. -/
def getCommitMessage (gpt35 gpt3516k : PyStr)
    (send : Nat → PyStr → PyStr → Option PyStr)
    (diffs : PyStr) (context : Option PyStr) : GenResult :=
  if 4 * 1024 * 4 ≤ diffs.length then
    { message := none, prompt := none, requests := [],
      errors := [tooLargeError gpt35] }
  else
    genFromResponse (composeContent diffs context)
      (tryModels send gpt35 (composeContent diffs context) [gpt35, gpt3516k] 0).2
      (tryModels send gpt35 (composeContent diffs context) [gpt35, gpt3516k] 0).1

/-! ### Commit creation (`AiderRepo.commit`, lines 56–81) -/

/-- Line 68: the fixed fallback placeholder message. -/
def fallbackMessage : PyStr := "(no commit message provided)".data

/-- Lines 67–68: `if not commit_message: commit_message = "(no commit message
provided)"` — replace a falsy (absent or empty) generated message by the
fixed placeholder. -/
def usableMessage (o : Option PyStr) : PyStr :=
  match o with
  | some m => if m ≠ [] then m else fallbackMessage
  | none => fallbackMessage

/-- Lines 70–71: `if prefix: commit_message = prefix + commit_message`
(`None` and the empty string are both falsy). -/
def applyPfx (pfx : Option PyStr) (m : PyStr) : PyStr :=
  match pfx with
  | some p => if p ≠ [] then p ++ m else m
  | none => m

/-- Lines 73–75: append the conversational context to the full commit body
when truthy. -/
def appendContext (context : Option PyStr) (m : PyStr) : PyStr :=
  match context with
  | some c =>
    if c ≠ [] then m ++ "\n\n# Aider chat conversation:\n\n".data ++ c else m
  | none => m

/-- Outcome of `AiderRepo.commit`: the returned pair (`none` models the bare
`return` on a clean tree), the full message passed to `git commit` (`none`
when no commit was issued), the `git diff` invocations, whether
`get_commit_message` ran, the model names submitted, and the
`tool_output` / `tool_error` messages. -/
structure CommitResult where
  result : Option (PyStr × PyStr)
  committedFull : Option PyStr
  diffCalls : List (List PyStr)
  genCalled : Bool
  requests : List PyStr
  outputs : List PyStr
  errors : List PyStr
deriving DecidableEq

/-- Lines 56–81 of `AiderRepo.commit`.  `headHash` is the hexsha of the head
commit read back after `git commit` (line 78); `isDirty` is
`self.repo.is_dirty()`. -/
def commit (gpt35 gpt3516k : PyStr)
    (send : Nat → PyStr → PyStr → Option PyStr)
    (gitDiff : List PyStr → PyStr) (headHash : PyStr) (isDirty : Bool)
    (context pfx message : Option PyStr) : CommitResult :=
  if !isDirty then
    { result := none, committedFull := none, diffCalls := [],
      genCalled := false, requests := [], outputs := [], errors := [] }
  else
    let args := getDiffsArgs false []
    let genRes := getCommitMessage gpt35 gpt3516k send (gitDiff args) context
    let genMsg := usableMessage genRes.message
    let finish := fun (cm : PyStr) (dc : List (List PyStr)) (gc : Bool)
        (reqs : List PyStr) (errs : List PyStr) =>
      let cm' := applyPfx pfx cm
      let full := appendContext context cm'
      { result := some (headHash.take 7, cm'),
        committedFull := some full,
        diffCalls := dc, genCalled := gc, requests := reqs,
        outputs := ["Commit ".data ++ headHash.take 7 ++ " ".data ++ cm'],
        errors := errs : CommitResult }
    match message with
    | some m =>
      if m ≠ [] then finish m [] false [] []
      else finish genMsg [args] true genRes.requests genRes.errors
    | none => finish genMsg [args] true genRes.requests genRes.errors

/-! ### Tracked files (`AiderRepo.get_tracked_files`, lines 157–174) -/

/-- The type tag of a git tree entry (`blob.type`). -/
inductive GitObjType where
  | blob
  | tree
deriving DecidableEq

/-- One entry produced by `commit.tree.traverse()`. -/
structure TreeEntry where
  type : GitObjType
  path : String
deriving DecidableEq

/-- Split a character list at every `'/'` (the segments of a posix path). -/
def splitOnSlash : List Char → List (List Char)
  | [] => [[]]
  | c :: rest =>
    let r := splitOnSlash rest
    if c = '/' then [] :: r
    else (c :: r.headD []) :: r.tail

/-- Line 172: `str(Path(PurePosixPath(path)))` — replace the forward-slash
separators of a clean git-relative path by the host separator: split on `'/'`
and rejoin the segments with `sep`. -/
def toHostPath (sep : Char) (p : String) : String :=
  String.mk (List.intercalate [sep] (splitOnSlash p.data))

/-- Lines 157–174 of `get_tracked_files`: `head` is `some entries` when the
repository has a head commit whose tree traversal yields `entries`, and `none`
when `self.repo.head.commit` raises `ValueError` (no commits yet).  Collect
the paths of the blob entries, convert separators, and return them as a set. -/
def getTrackedFiles (sep : Char) (head : Option (List TreeEntry)) :
    Finset String :=
  match head with
  | none => ∅
  | some entries =>
    ((entries.filter fun e => e.type == GitObjType.blob).map
      fun e => toHostPath sep e.path).toFinset

/-! ## Helper lemmas -/

/-- The last element of a nonempty list exists. -/
lemma getLast?_isSome_of_ne_nil : ∀ (l : List String), l ≠ [] → l.getLast?.isSome = true
  | [], h => absurd rfl h
  | [_], _ => rfl
  | _ :: b :: t, _ => by
    rw [List.getLast?_cons_cons]
    exact getLast?_isSome_of_ne_nil (b :: t) (List.cons_ne_nil _ _)

/-- The last element of a list is a member. -/
lemma mem_of_getLast?_eq : ∀ (l : List String) (a : String), l.getLast? = some a → a ∈ l
  | [], _, h => by simp [List.getLast?] at h
  | [b], a, h => by
    simp [List.getLast?] at h
    simp [h]
  | _ :: c :: t, a, h => by
    rw [List.getLast?_cons_cons] at h
    exact List.mem_cons_of_mem _ (mem_of_getLast?_eq (c :: t) a h)

/-- `len(set(l)) = 1` iff `l` is nonempty and all its elements coincide. -/
lemma dedup_length_eq_one_iff (l : List String) :
    l.dedup.length = 1 ↔ ∃ r, l ≠ [] ∧ ∀ p ∈ l, p = r := by
  constructor
  · intro h
    obtain ⟨a, ha⟩ := List.length_eq_one.mp h
    refine ⟨a, ?_, ?_⟩
    · intro hnil
      rw [hnil] at ha
      simp at ha
    · intro p hp
      have hmem : p ∈ l.dedup := List.mem_dedup.mpr hp
      rw [ha] at hmem
      simpa using hmem
  · rintro ⟨r, hne, hall⟩
    have hrl : r ∈ l := by
      obtain ⟨x, hx⟩ := List.exists_mem_of_ne_nil l hne
      have := hall x hx
      rwa [this] at hx
    have hrd : r ∈ l.dedup := List.mem_dedup.mpr hrl
    have hd : ∀ p ∈ l.dedup, p = r := fun p hp => hall p (List.mem_dedup.mp hp)
    have hnodup : l.dedup.Nodup := l.nodup_dedup
    cases hdl : l.dedup with
    | nil => rw [hdl] at hrd; simp at hrd
    | cons a t =>
      cases t with
      | nil => simp
      | cons b t2 =>
        exfalso
        rw [hdl] at hnodup hd
        have ha : a = r := hd a (by simp)
        have hb : b = r := hd b (by simp)
        rw [List.nodup_cons] at hnodup
        exact hnodup.1 (by rw [ha, ← hb]; simp)

/-! ## Claim theorems -/

/-- C1: construction succeeds iff at least one candidate resolves to a
repository and all resolving candidates yield the same root; with no
resolving candidate it fails silently (the bare `FileNotFoundError`), with
more than one distinct root it reports the conflict and fails, and on success
the adopted root is one of the resolved roots. -/
theorem aiderRepoInit_spec (resolveRoot : String → Option String)
    (fnames : List String) :
    ((aiderRepoInit resolveRoot fnames).root.isSome = true ↔
      ∃ r, repoPaths resolveRoot fnames ≠ [] ∧
        ∀ p ∈ repoPaths resolveRoot fnames, p = r) ∧
    (repoPaths resolveRoot fnames = [] →
      aiderRepoInit resolveRoot fnames = { root := none, errors := [] }) ∧
    (1 < (repoPaths resolveRoot fnames).dedup.length →
      aiderRepoInit resolveRoot fnames =
        { root := none, errors := ["Files are in different git repos."] }) ∧
    (∀ r, (aiderRepoInit resolveRoot fnames).root = some r →
      r ∈ repoPaths resolveRoot fnames) := by
  have hiff := dedup_length_eq_one_iff (repoPaths resolveRoot fnames)
  refine ⟨?_, ?_, ?_, ?_⟩
  · rw [← hiff]
    unfold aiderRepoInit
    rcases Nat.lt_trichotomy (repoPaths resolveRoot fnames).dedup.length 1 with h | h | h
    · have h0 : (repoPaths resolveRoot fnames).dedup.length = 0 := Nat.lt_one_iff.mp h
      simp [h0]
    · have hne : repoPaths resolveRoot fnames ≠ [] := (hiff.mp h).elim fun _ hr => hr.1
      simp [h, getLast?_isSome_of_ne_nil _ hne]
    · have h0 : (repoPaths resolveRoot fnames).dedup.length ≠ 0 := by omega
      have h1 : (repoPaths resolveRoot fnames).dedup.length ≠ 1 := by omega
      simp [h0, h, h1]
  · intro hnil
    unfold aiderRepoInit
    simp [hnil]
  · intro hgt
    have h0 : (repoPaths resolveRoot fnames).dedup.length ≠ 0 := by omega
    unfold aiderRepoInit
    simp [h0, hgt]
  · intro r hr
    unfold aiderRepoInit at hr
    rcases Nat.lt_trichotomy (repoPaths resolveRoot fnames).dedup.length 1 with h | h | h
    · have h0 : (repoPaths resolveRoot fnames).dedup.length = 0 := Nat.lt_one_iff.mp h
      simp [h0] at hr
    · simp [h, Nat.lt_irrefl] at hr
      exact mem_of_getLast?_eq _ r hr
    · have h0 : (repoPaths resolveRoot fnames).dedup.length ≠ 0 := by omega
      simp [h0, h] at hr

/-- Witness for C1: two candidates in one repository (plus one outside any)
succeed; two candidates in two different repositories fail with the conflict
message. -/
theorem aiderRepoInit_spec_witness :
    (aiderRepoInit
      (fun p => if p = "x" then some "R" else if p = "y" then some "R" else none)
      ["x", "y", "z"]).root.isSome = true ∧
    aiderRepoInit
      (fun p => if p = "a" then some "R1" else if p = "b" then some "R2" else none)
      ["a", "b"] =
      { root := none, errors := ["Files are in different git repos."] } := by
  constructor
  · exact (aiderRepoInit_spec
      (fun p => if p = "x" then some "R" else if p = "y" then some "R" else none)
      ["x", "y", "z"]).1.mpr ⟨"R", by decide, by decide⟩
  · exact (aiderRepoInit_spec
      (fun p => if p = "a" then some "R1" else if p = "b" then some "R2" else none)
      ["a", "b"]).2.2.1 (by decide)

/-- C2: with a clean working tree, `commit` returns no result, issues no
`git commit`, computes no diff, never calls the generation path and emits no
messages — whatever the other arguments and oracles are. -/
theorem commit_clean_tree_noop (gpt35 gpt3516k : PyStr)
    (send : Nat → PyStr → PyStr → Option PyStr)
    (gitDiff : List PyStr → PyStr) (headHash : PyStr)
    (context pfx message : Option PyStr) :
    commit gpt35 gpt3516k send gitDiff headHash false context pfx message =
      { result := none, committedFull := none, diffCalls := [],
        genCalled := false, requests := [], outputs := [], errors := [] } := rfl

/-- C4 (code behavior at the failing input): with no explicit arguments,
`get_diffs` passes `["HEAD"]` when `pretty` is false, but only `["--color"]`
when `pretty` is true — the implied `HEAD` reference is missing, so the
pretty diff is not taken against the last commit. -/
theorem getDiffsArgs_pretty_drops_head :
    getDiffsArgs false [] = ["HEAD".data] ∧
    getDiffsArgs true [] = ["--color".data] ∧
    "HEAD".data ∉ getDiffsArgs true [] := by decide

/-- C8: tracked-file listing is empty when there is no head commit, and with
a head commit it contains exactly the host-normalized paths of the blob-type
entries of its tree. -/
theorem getTrackedFiles_spec (sep : Char) :
    getTrackedFiles sep none = ∅ ∧
    ∀ (entries : List TreeEntry) (x : String),
      x ∈ getTrackedFiles sep (some entries) ↔
        ∃ e ∈ entries, e.type = GitObjType.blob ∧ x = toHostPath sep e.path := by
  refine ⟨rfl, ?_⟩
  intro entries x
  simp only [getTrackedFiles, List.mem_toFinset, List.mem_map, List.mem_filter,
    beq_iff_eq]
  constructor
  · rintro ⟨e, ⟨he, ht⟩, hx⟩
    exact ⟨e, he, ht, hx.symm⟩
  · rintro ⟨e, he, ht, hx⟩
    exact ⟨e, ⟨he, ht⟩, hx.symm⟩

/-- Witness for C8: a commit tree with blobs `a/b.txt` and `c.txt` (and a
tree entry) yields exactly those two paths. -/
theorem getTrackedFiles_spec_witness :
    "a/b.txt" ∈ getTrackedFiles '/'
      (some [⟨GitObjType.tree, "a"⟩, ⟨GitObjType.blob, "a/b.txt"⟩,
             ⟨GitObjType.blob, "c.txt"⟩]) := by
  exact ((getTrackedFiles_spec '/').2
    [⟨GitObjType.tree, "a"⟩, ⟨GitObjType.blob, "a/b.txt"⟩,
     ⟨GitObjType.blob, "c.txt"⟩] "a/b.txt").mpr
    ⟨⟨GitObjType.blob, "a/b.txt"⟩, by decide, rfl, by decide⟩

/-- Requests recorded by the model-fallback loop all carry the primary model
name, because the `send_with_retries` call hardcodes `models.GPT35.name`. -/
lemma tryModels_requests_eq (send : Nat → PyStr → PyStr → Option PyStr)
    (gpt35 content : PyStr) :
    ∀ (ms : List PyStr) (i : Nat) (r : PyStr),
      r ∈ (tryModels send gpt35 content ms i).2 → r = gpt35 := by
  intro ms
  induction ms with
  | nil => intro i r hr; simp [tryModels] at hr
  | cons m rest ih =>
    intro i r hr
    rw [tryModels] at hr
    cases hsend : send i gpt35 content with
    | some resp => rw [hsend] at hr; simpa using hr
    | none =>
      rw [hsend] at hr
      simp only [List.mem_cons] at hr
      rcases hr with hr | hr
      · exact hr
      · exact ih (i + 1) r hr

/-- The model-fallback loop always makes a first request. -/
lemma tryModels_requests_ne_nil (send : Nat → PyStr → PyStr → Option PyStr)
    (gpt35 content m : PyStr) (ms : List PyStr) (i : Nat) :
    (tryModels send gpt35 content (m :: ms) i).2 ≠ [] := by
  rw [tryModels]
  cases hsend : send i gpt35 content <;> simp

/-- `genFromResponse` reports exactly the requests it is given. -/
lemma genFromResponse_requests (content : PyStr) (reqs : List PyStr) :
    ∀ o : Option PyStr, (genFromResponse content reqs o).requests = reqs := by
  intro o
  cases o with
  | none => rfl
  | some m =>
    by_cases hm : m = []
    · simp [genFromResponse, hm]
    · simp [genFromResponse, hm]

/-- `genFromResponse` always records the composed prompt. -/
lemma genFromResponse_prompt (content : PyStr) (reqs : List PyStr) :
    ∀ o : Option PyStr, (genFromResponse content reqs o).prompt = some content := by
  intro o
  cases o with
  | none => rfl
  | some m =>
    by_cases hm : m = []
    · simp [genFromResponse, hm]
    · simp [genFromResponse, hm]

/-- C3 counterexample: a diff of length exactly `4 * 4096` is *rejected* —
`get_commit_message` composes no prompt, submits nothing, emits the
"too large" error and returns no message, even though the service would have
answered. -/
theorem getCommitMessage_at_threshold_rejected :
    (List.replicate (4 * 1024 * 4) 'a').length = 4 * 1024 * 4 ∧
    getCommitMessage "gpt-3.5-turbo".data "gpt-3.5-turbo-16k".data
        (fun _ _ _ => some "msg".data) (List.replicate (4 * 1024 * 4) 'a') none =
      { message := none, prompt := none, requests := [],
        errors := [tooLargeError "gpt-3.5-turbo".data] } := by
  have hlen : (List.replicate (4 * 1024 * 4) 'a').length = 4 * 1024 * 4 :=
    List.length_replicate _ _
  refine ⟨hlen, ?_⟩
  unfold getCommitMessage
  rw [if_pos (le_of_eq hlen.symm)]

/-- C3 (amended): a diff of length strictly below `4 * 4096` is accepted —
a prompt is composed and at least one request is submitted; a diff of length
`4 * 4096` or more is rejected with the "diff too large" error, no prompt, no
request and no message. -/
theorem getCommitMessage_threshold (gpt35 gpt3516k : PyStr)
    (send : Nat → PyStr → PyStr → Option PyStr)
    (diffs : PyStr) (context : Option PyStr) :
    (diffs.length < 4 * 1024 * 4 →
      (getCommitMessage gpt35 gpt3516k send diffs context).prompt.isSome = true ∧
      (getCommitMessage gpt35 gpt3516k send diffs context).requests ≠ []) ∧
    (4 * 1024 * 4 ≤ diffs.length →
      getCommitMessage gpt35 gpt3516k send diffs context =
        { message := none, prompt := none, requests := [],
          errors := [tooLargeError gpt35] }) := by
  constructor
  · intro hlt
    have hcond : ¬(4 * 1024 * 4 ≤ diffs.length) := by omega
    unfold getCommitMessage
    rw [if_neg hcond]
    rw [genFromResponse_prompt, genFromResponse_requests]
    exact ⟨rfl, tryModels_requests_ne_nil send gpt35
      (composeContent diffs context) gpt35 [gpt3516k] 0⟩
  · intro hge
    unfold getCommitMessage
    rw [if_pos hge]

/-- Witness for C3's amended theorem: a one-character diff is accepted and
submitted; a diff of length `4 * 4096` is rejected. -/
theorem getCommitMessage_threshold_witness :
    (getCommitMessage "gpt-3.5-turbo".data "gpt-3.5-turbo-16k".data
        (fun _ _ _ => some "msg".data) "d".data none).prompt.isSome = true ∧
    getCommitMessage "gpt-3.5-turbo".data "gpt-3.5-turbo-16k".data
        (fun _ _ _ => some "msg".data) (List.replicate (4 * 1024 * 4) 'b') none =
      { message := none, prompt := none, requests := [],
        errors := [tooLargeError "gpt-3.5-turbo".data] } := by
  constructor
  · exact ((getCommitMessage_threshold "gpt-3.5-turbo".data "gpt-3.5-turbo-16k".data
      (fun _ _ _ => some "msg".data) "d".data none).1 (by decide)).1
  · exact (getCommitMessage_threshold "gpt-3.5-turbo".data "gpt-3.5-turbo-16k".data
      (fun _ _ _ => some "msg".data) (List.replicate (4 * 1024 * 4) 'b') none).2
      (le_of_eq (List.length_replicate _ _).symm)

/-- C5 (code behavior): every request `get_commit_message` submits carries
the primary model's name — in particular, when the first attempt fails, the
second submission is *not* made with the larger-context variant but with the
primary model again (the loop variable of lines 111–118 is unused; line 114
hardcodes `models.GPT35.name`). -/
theorem getCommitMessage_requests_all_primary (gpt35 gpt3516k : PyStr)
    (send : Nat → PyStr → PyStr → Option PyStr)
    (diffs : PyStr) (context : Option PyStr) :
    ∀ r ∈ (getCommitMessage gpt35 gpt3516k send diffs context).requests,
      r = gpt35 := by
  intro r hr
  unfold getCommitMessage at hr
  by_cases hcond : 4 * 1024 * 4 ≤ diffs.length
  · rw [if_pos hcond] at hr
    simp at hr
  · rw [if_neg hcond, genFromResponse_requests] at hr
    exact tryModels_requests_eq send gpt35 (composeContent diffs context)
      [gpt35, gpt3516k] 0 r hr

/-- Witness for C5: with distinct concrete model names and a first attempt
that fails, both submissions use the primary name, so the second request is
not the 16k variant. -/
theorem getCommitMessage_requests_all_primary_witness :
    (getCommitMessage "gpt-3.5-turbo".data "gpt-3.5-turbo-16k".data
        (fun i _ _ => if i = 0 then none else some "ok".data) "d".data none).requests =
      ["gpt-3.5-turbo".data, "gpt-3.5-turbo".data] ∧
    "gpt-3.5-turbo-16k".data ∉
      (getCommitMessage "gpt-3.5-turbo".data "gpt-3.5-turbo-16k".data
        (fun i _ _ => if i = 0 then none else some "ok".data) "d".data none).requests := by
  constructor
  · decide
  · intro hmem
    have h := getCommitMessage_requests_all_primary "gpt-3.5-turbo".data
      "gpt-3.5-turbo-16k".data (fun i _ _ => if i = 0 then none else some "ok".data)
      "d".data none "gpt-3.5-turbo-16k".data hmem
    exact absurd h (by decide)

/-- C7: post-processing of a generated message strips whitespace; when the
stripped text starts and ends with `"` exactly one layer of quotes is removed
(and the inside re-stripped); otherwise the stripped text is returned
untouched. -/
theorem postprocessMessage_spec (s inner : PyStr) :
    (pyStrip s = '"' :: (inner ++ ['"']) →
      postprocessMessage s = pyStrip inner) ∧
    (¬(pyStrip s ≠ [] ∧ (pyStrip s).head? = some '"' ∧
        (pyStrip s).getLast? = some '"') →
      postprocessMessage s = pyStrip s) := by
  constructor
  · intro h
    unfold postprocessMessage
    rw [h]
    rw [if_pos]
    · rw [show ('"' :: (inner ++ ['"'])).drop 1 = inner ++ ['"'] from rfl]
      rw [List.dropLast_concat]
    · refine ⟨by simp, rfl, ?_⟩
      rw [show '"' :: (inner ++ ['"']) = ('"' :: inner) ++ ['"'] from rfl]
      exact List.getLast?_concat _
  · intro h
    unfold postprocessMessage
    rw [if_neg h]

/-- Witness for C7: a double-quoted message loses exactly one quote layer;
a message with only internal quotes is returned unchanged. -/
theorem postprocessMessage_spec_witness :
    postprocessMessage "\"hi\"".data = "hi".data ∧
    postprocessMessage "a \"b\" c".data = "a \"b\" c".data := by
  constructor
  · have h := (postprocessMessage_spec "\"hi\"".data "hi".data).1 (by decide)
    rw [h]
    decide
  · have h := (postprocessMessage_spec "a \"b\" c".data []).2 (by decide)
    rw [h]
    decide

/-- The substituted message (lines 60–68) is never empty: either it is a
nonempty generated message or the nonempty placeholder. -/
lemma usableMessage_ne_nil : ∀ o : Option PyStr, usableMessage o ≠ []
  | none => by decide
  | some m => by
    by_cases hm : m = []
    · subst hm; decide
    · simp [usableMessage, hm]

/-- A falsy generation outcome (`none` or the empty message) is replaced by
the fixed placeholder. -/
lemma usableMessage_eq_fallback (o : Option PyStr) (h : o.getD [] = []) :
    usableMessage o = fallbackMessage := by
  cases o with
  | none => rfl
  | some m =>
    simp only [Option.getD_some] at h
    simp [usableMessage, h]

/-- Prepending the prefix keeps the message nonempty. -/
lemma applyPfx_ne_nil (pfx : Option PyStr) {m : PyStr} (hm : m ≠ []) :
    applyPfx pfx m ≠ [] := by
  cases pfx with
  | none => exact hm
  | some p =>
    by_cases hp : p = []
    · simpa [applyPfx, hp] using hm
    · simp [applyPfx, hp, hm]

/-- Unfolding `commit` on a dirty tree along the generation path (no explicit
message): the diff is taken with the default `HEAD` arguments, generation
runs, and the substituted message is prefixed, context-extended and
committed. -/
lemma commit_gen_path_eq (gpt35 gpt3516k : PyStr)
    (send : Nat → PyStr → PyStr → Option PyStr)
    (gitDiff : List PyStr → PyStr) (headHash : PyStr)
    (context pfx : Option PyStr) :
    commit gpt35 gpt3516k send gitDiff headHash true context pfx none =
      { result := some (headHash.take 7, applyPfx pfx (usableMessage
          (getCommitMessage gpt35 gpt3516k send
            (gitDiff (getDiffsArgs false [])) context).message)),
        committedFull := some (appendContext context (applyPfx pfx
          (usableMessage (getCommitMessage gpt35 gpt3516k send
            (gitDiff (getDiffsArgs false [])) context).message))),
        diffCalls := [getDiffsArgs false []],
        genCalled := true,
        requests := (getCommitMessage gpt35 gpt3516k send
          (gitDiff (getDiffsArgs false [])) context).requests,
        outputs := ["Commit ".data ++ headHash.take 7 ++ " ".data ++
          applyPfx pfx (usableMessage (getCommitMessage gpt35 gpt3516k send
            (gitDiff (getDiffsArgs false [])) context).message)],
        errors := (getCommitMessage gpt35 gpt3516k send
          (gitDiff (getDiffsArgs false [])) context).errors } := rfl

/-- Unfolding `commit` on a dirty tree with a truthy explicit message: the
message is used as-is and no diff or generation machinery appears. -/
lemma commit_explicit_eq (gpt35 gpt3516k : PyStr)
    (send : Nat → PyStr → PyStr → Option PyStr)
    (gitDiff : List PyStr → PyStr) (headHash : PyStr)
    (context pfx : Option PyStr) (m : PyStr) (hm : m ≠ []) :
    commit gpt35 gpt3516k send gitDiff headHash true context pfx (some m) =
      { result := some (headHash.take 7, applyPfx pfx m),
        committedFull := some (appendContext context (applyPfx pfx m)),
        diffCalls := [], genCalled := false, requests := [],
        outputs := ["Commit ".data ++ headHash.take 7 ++ " ".data ++
          applyPfx pfx m],
        errors := [] } := by
  obtain ⟨a, l, rfl⟩ : ∃ a l, m = a :: l := by
    cases m with
    | nil => exact absurd rfl hm
    | cons a l => exact ⟨a, l, rfl⟩
  rfl

/-- C6: on a dirty tree, when generation yields nothing usable (no message or
an empty one — covering the too-large diff, all attempts failing, and the
malformed-response case), the commit still proceeds: it returns the short
hash together with the (prefixed) fixed placeholder, and issues the commit. -/
theorem commit_placeholder_on_generation_failure (gpt35 gpt3516k : PyStr)
    (send : Nat → PyStr → PyStr → Option PyStr)
    (gitDiff : List PyStr → PyStr) (headHash : PyStr)
    (context pfx : Option PyStr)
    (h : (getCommitMessage gpt35 gpt3516k send
      (gitDiff (getDiffsArgs false [])) context).message.getD [] = []) :
    (commit gpt35 gpt3516k send gitDiff headHash true context pfx none).result =
      some (headHash.take 7, applyPfx pfx fallbackMessage) ∧
    (commit gpt35 gpt3516k send gitDiff headHash true context pfx
      none).committedFull =
      some (appendContext context (applyPfx pfx fallbackMessage)) ∧
    (commit gpt35 gpt3516k send gitDiff headHash true context pfx
      none).genCalled = true := by
  have hu := usableMessage_eq_fallback _ h
  rw [commit_gen_path_eq, hu]
  exact ⟨rfl, rfl, rfl⟩

/-- Witness for C6: with a service that always fails, the commit returns the
placeholder message and is issued. -/
theorem commit_placeholder_on_generation_failure_witness :
    (commit "g".data "h".data (fun _ _ _ => none) (fun _ => "d".data)
      "abcdefgh".data true none none none).result =
      some ("abcdefgh".data.take 7, applyPfx none fallbackMessage) ∧
    (commit "g".data "h".data (fun _ _ _ => none) (fun _ => "d".data)
      "abcdefgh".data true none none none).committedFull.isSome = true := by
  have h := commit_placeholder_on_generation_failure "g".data "h".data
    (fun _ _ _ => none) (fun _ => "d".data) "abcdefgh".data none none (by decide)
  refine ⟨h.1, ?_⟩
  rw [h.2.1]
  rfl

/-- C9: on a dirty tree with a truthy explicit message, `commit` computes no
diff, never calls the generation machinery, submits no request, and its whole
outcome is unchanged when the generation service and diff oracles are
swapped. -/
theorem commit_explicit_message_no_generation (gpt35 gpt3516k : PyStr)
    (send send' : Nat → PyStr → PyStr → Option PyStr)
    (gitDiff gitDiff' : List PyStr → PyStr) (headHash : PyStr)
    (context pfx : Option PyStr) (m : PyStr) (hm : m ≠ []) :
    (commit gpt35 gpt3516k send gitDiff headHash true context pfx
      (some m)).diffCalls = [] ∧
    (commit gpt35 gpt3516k send gitDiff headHash true context pfx
      (some m)).genCalled = false ∧
    (commit gpt35 gpt3516k send gitDiff headHash true context pfx
      (some m)).requests = [] ∧
    commit gpt35 gpt3516k send gitDiff headHash true context pfx (some m) =
      commit gpt35 gpt3516k send' gitDiff' headHash true context pfx (some m) := by
  rw [commit_explicit_eq gpt35 gpt3516k send gitDiff headHash context pfx m hm,
    commit_explicit_eq gpt35 gpt3516k send' gitDiff' headHash context pfx m hm]
  exact ⟨rfl, rfl, rfl, rfl⟩

/-- Witness for C9: a concrete explicit-message commit ignores two different
generation services. -/
theorem commit_explicit_message_no_generation_witness :
    (commit "g".data "h".data (fun _ _ _ => none) (fun _ => "d".data)
      "abcdefgh".data true none none (some "fix".data)).requests = [] ∧
    commit "g".data "h".data (fun _ _ _ => none) (fun _ => "d".data)
      "abcdefgh".data true none none (some "fix".data) =
    commit "g".data "h".data (fun _ _ _ => some "other".data)
      (fun _ => "e".data) "abcdefgh".data true none none (some "fix".data) := by
  have h := commit_explicit_message_no_generation "g".data "h".data
    (fun _ _ _ => none) (fun _ _ _ => some "other".data)
    (fun _ => "d".data) (fun _ => "e".data) "abcdefgh".data none none
    "fix".data (by decide)
  exact ⟨h.2.2.1, h.2.2.2⟩

/-- C10: an explicit empty message behaves exactly like an absent one — the
generation path runs (the default diff is computed and generation is
invoked) — and the message finally committed is never the empty string. -/
theorem commit_empty_message_generates (gpt35 gpt3516k : PyStr)
    (send : Nat → PyStr → PyStr → Option PyStr)
    (gitDiff : List PyStr → PyStr) (headHash : PyStr)
    (context pfx : Option PyStr) :
    commit gpt35 gpt3516k send gitDiff headHash true context pfx (some []) =
      commit gpt35 gpt3516k send gitDiff headHash true context pfx none ∧
    (commit gpt35 gpt3516k send gitDiff headHash true context pfx
      (some [])).genCalled = true ∧
    (commit gpt35 gpt3516k send gitDiff headHash true context pfx
      (some [])).diffCalls = [getDiffsArgs false []] ∧
    ∀ hsh msg, (commit gpt35 gpt3516k send gitDiff headHash true context pfx
      (some [])).result = some (hsh, msg) → msg ≠ [] := by
  refine ⟨rfl, rfl, rfl, ?_⟩
  intro hsh msg hres
  rw [show commit gpt35 gpt3516k send gitDiff headHash true context pfx
      (some []) = commit gpt35 gpt3516k send gitDiff headHash true context pfx
      none from rfl, commit_gen_path_eq] at hres
  simp only [Option.some.injEq, Prod.mk.injEq] at hres
  rw [← hres.2]
  exact applyPfx_ne_nil pfx (usableMessage_ne_nil _)

/-- Witness for C10: a concrete empty-message commit equals the no-message
commit, and its committed message is nonempty. -/
theorem commit_empty_message_generates_witness :
    commit "g".data "h".data (fun _ _ _ => some "New msg".data)
      (fun _ => "d".data) "abcdefgh".data true none none (some []) =
    commit "g".data "h".data (fun _ _ _ => some "New msg".data)
      (fun _ => "d".data) "abcdefgh".data true none none none ∧
    "New msg".data ≠ [] := by
  have h := commit_empty_message_generates "g".data "h".data
    (fun _ _ _ => some "New msg".data) (fun _ => "d".data) "abcdefgh".data
    none none
  exact ⟨h.1, h.2.2.2 "abcdefg".data "New msg".data (by decide)⟩

end AiderRepoSpec
